import Mathlib

/-!
# Reconciliation logic of the OIDC provider client-id resource

A shallow embedding of `internal/provider/oidc_provider_client_id_resource.go`
(the resource written against the plugin framework's `diag` package) and of
`blackdarkaws/resource_aws_oidc_provider_client_id.go` (the older resource
written against raw protocol diagnostics).

Stateful code is written in explicit state-passing style: every lifecycle verb
takes the request, the response it is handed (Go passes a pointer), and the
`World` (the remote store behind the IAM client, the trace of lock and remote
events, the log), and returns the response and the world it leaves behind.
Go `error` values are represented by their message, which is what formatting
with `%s` and `err.Error()` observe.
-/

set_option autoImplicit false

/-- Go's built-in string type. -/
abbrev string := String

/-! ## Framework values: `types.String`, diagnostics, state -/

/-- The framework's `types.String`: a string that may be unknown or null. -/
structure types.String where
  Unknown : Bool
  Null : Bool
  Value : string
  deriving DecidableEq

/-- Severity of a diagnostic. -/
inductive diag.Severity where
  | Error
  | Warning
  deriving DecidableEq

/-- One diagnostic: severity, summary and detail. -/
structure diag.Diagnostic where
  Severity : diag.Severity
  Summary : string
  Detail : string
  deriving DecidableEq

/-- The framework's `diag.Diagnostics`: a collection of diagnostics. -/
abbrev diag.Diagnostics := List diag.Diagnostic

/-- `Diagnostics.Contains`: whether an equal diagnostic is in the collection. -/
def diag.Diagnostics.Contains (diags : diag.Diagnostics) (d : diag.Diagnostic) : Bool :=
  diags.any (fun x => decide (x = d))

/-- `Diagnostics.Append`: adds the diagnostics that are not already contained,
in order. -/
def diag.Diagnostics.Append (diags : diag.Diagnostics) (ds : List diag.Diagnostic) :
    diag.Diagnostics :=
  ds.foldl (fun acc d => if diag.Diagnostics.Contains acc d then acc else acc ++ [d]) diags

/-- `Diagnostics.AddError(summary, detail)`. -/
def diag.Diagnostics.AddError (diags : diag.Diagnostics) (summary detail : string) :
    diag.Diagnostics :=
  diag.Diagnostics.Append diags [{ Severity := .Error, Summary := summary, Detail := detail }]

/-- `Diagnostics.AddWarning(summary, detail)`. -/
def diag.Diagnostics.AddWarning (diags : diag.Diagnostics) (summary detail : string) :
    diag.Diagnostics :=
  diag.Diagnostics.Append diags [{ Severity := .Warning, Summary := summary, Detail := detail }]

/-- `Diagnostics.HasError`: whether some diagnostic has severity error. -/
def diag.Diagnostics.HasError (diags : diag.Diagnostics) : Bool :=
  diags.any (fun d => decide (d.Severity = diag.Severity.Error))

/-- The tracked attributes of the resource (`oidcProviderClientIdResourceData`). -/
structure oidcProviderClientIdResourceData where
  ClientId : types.String
  OidcArn : types.String
  deriving DecidableEq

/-- The zero value of `oidcProviderClientIdResourceData` (`var data ...`). -/
def oidcProviderClientIdResourceData.zero : oidcProviderClientIdResourceData :=
  { ClientId := { Unknown := false, Null := false, Value := "" },
    OidcArn := { Unknown := false, Null := false, Value := "" } }

/-- A configuration, plan or state value of the framework (`tfsdk.Config`,
`tfsdk.Plan`, `tfsdk.State`): `Raw` is `none` for the null object (no resource)
and otherwise holds the two attributes. -/
structure tfsdk.State where
  Raw : Option oidcProviderClientIdResourceData
  deriving DecidableEq

/-- The configuration of a request has the shape of a state. -/
abbrev tfsdk.Config := tfsdk.State

/-- The plan of a request has the shape of a state. -/
abbrev tfsdk.Plan := tfsdk.State

/-- The diagnostic the framework's reflection reports for a null object that is
read into a struct. -/
def tfsdk.valueConversionError : diag.Diagnostic :=
  { Severity := .Error, Summary := "Value Conversion Error",
    Detail := "An unexpected error was encountered trying to build a value. This is always an error in the provider. Please report the following to the provider developer:\n\nunhandled null value" }

/-- `State.Get(ctx, &data)` (also `Config.Get`, `Plan.Get`): decodes the object
into the data struct; every attribute value (known, null or unknown) fits a
`types.String`, and only the null object does not fit the struct. -/
def tfsdk.State.Get (s : tfsdk.State) (data : oidcProviderClientIdResourceData) :
    oidcProviderClientIdResourceData × diag.Diagnostics :=
  match s.Raw with
  | some d => (d, [])
  | none => (data, [tfsdk.valueConversionError])

/-- A `types.String` as the state holds it: `Set` converts the struct field to
a value of the state (`ToTerraformValue`: null when `Null` is set, else unknown
when `Unknown` is set, else the string) and `Get` decodes that value again, so
the `Value` beside a set `Null` or `Unknown` is dropped. -/
def types.String.stored (s : types.String) : types.String :=
  if s.Null then { Unknown := false, Null := true, Value := "" }
  else if s.Unknown then { Unknown := true, Null := false, Value := "" }
  else { Unknown := false, Null := false, Value := s.Value }

/-- The struct as the state holds it, attribute by attribute. -/
def oidcProviderClientIdResourceData.stored (d : oidcProviderClientIdResourceData) :
    oidcProviderClientIdResourceData :=
  { ClientId := d.ClientId.stored, OidcArn := d.OidcArn.stored }

/-- `State.Set(ctx, &data)`: writes the struct to the state, each field as the
state holds it; two `types.String` fields always fit the schema of `GetSchema`,
so no diagnostic is returned. -/
def tfsdk.State.Set (_s : tfsdk.State) (data : oidcProviderClientIdResourceData) :
    tfsdk.State × diag.Diagnostics :=
  ({ Raw := some data.stored }, [])

/-- `State.RemoveResource(ctx)`: the state becomes the null object. -/
def tfsdk.State.RemoveResource (_s : tfsdk.State) : tfsdk.State :=
  { Raw := none }

/-! ## The world: IAM client, lock, trace -/

/-- What an operation does that is visible outside it, in order. -/
inductive Event where
  | Lock
  | Unlock
  | AddClientIDToOpenIDConnectProvider (ClientID OpenIDConnectProviderArn : string)
  | RemoveClientIDFromOpenIDConnectProvider (ClientID OpenIDConnectProviderArn : string)
  | GetOpenIDConnectProvider (OpenIDConnectProviderArn : string)
  deriving DecidableEq

/-- The part of `iam.GetOpenIDConnectProviderOutput` the resource reads. -/
structure iam.GetOpenIDConnectProviderOutput where
  ClientIDList : List string
  deriving DecidableEq

/-- The IAM client (`r.provider.iamClient`) over a remote store `σ`: each call
returns its output or an error (its message), and the store it leaves. -/
structure iam.Client (σ : Type) where
  AddClientIDToOpenIDConnectProvider :
    (ClientID OpenIDConnectProviderArn : string) → σ → Except string Unit × σ
  RemoveClientIDFromOpenIDConnectProvider :
    (ClientID OpenIDConnectProviderArn : string) → σ → Except string Unit × σ
  GetOpenIDConnectProvider :
    (OpenIDConnectProviderArn : string) → σ →
      Except string iam.GetOpenIDConnectProviderOutput × σ

/-- The state outside the response: the remote store, the events so far, and
the log lines written through `tflog`. -/
structure World (σ : Type) where
  remote : σ
  trace : List Event
  log : List (string × string)

/-- Modelled from the spec: the struct `provider` of package `provider`, whose
declaration is not among the sources; the resource uses its fields `lock` and
`iamClient`. The lock is the process-wide mutual-exclusion guard of the spec;
an operation is followed on its own, so acquire and release show as the events
`Lock` and `Unlock` of the trace and the lock has no field here. -/
structure provider (σ : Type) where
  iamClient : iam.Client σ

/-- The resource (`oidcProviderClientIdResource`). -/
structure oidcProviderClientIdResource (σ : Type) where
  provider : provider σ

/-- `r.provider.lock.Lock()`. -/
def World.Lock {σ : Type} (w : World σ) : World σ :=
  { w with trace := w.trace ++ [Event.Lock] }

/-- `r.provider.lock.Unlock()`. -/
def World.Unlock {σ : Type} (w : World σ) : World σ :=
  { w with trace := w.trace ++ [Event.Unlock] }

/-- A line written with `tflog`. -/
def World.tflog {σ : Type} (w : World σ) (level msg : string) : World σ :=
  { w with log := w.log ++ [(level, msg)] }

/-- The call `iamClient.AddClientIDToOpenIDConnectProvider(...)` in a world. -/
def World.AddClientIDToOpenIDConnectProvider {σ : Type} (c : iam.Client σ)
    (clientId oidcArn : string) (w : World σ) : Except string Unit × World σ :=
  let res := c.AddClientIDToOpenIDConnectProvider clientId oidcArn w.remote
  (res.1, { w with remote := res.2,
                   trace := w.trace ++ [Event.AddClientIDToOpenIDConnectProvider clientId oidcArn] })

/-- The call `iamClient.RemoveClientIDFromOpenIDConnectProvider(...)` in a world. -/
def World.RemoveClientIDFromOpenIDConnectProvider {σ : Type} (c : iam.Client σ)
    (clientId oidcArn : string) (w : World σ) : Except string Unit × World σ :=
  let res := c.RemoveClientIDFromOpenIDConnectProvider clientId oidcArn w.remote
  (res.1, { w with remote := res.2,
                   trace := w.trace ++
                     [Event.RemoveClientIDFromOpenIDConnectProvider clientId oidcArn] })

/-- The call `iamClient.GetOpenIDConnectProvider(...)` in a world. -/
def World.GetOpenIDConnectProvider {σ : Type} (c : iam.Client σ)
    (oidcArn : string) (w : World σ) :
    Except string iam.GetOpenIDConnectProviderOutput × World σ :=
  let res := c.GetOpenIDConnectProvider oidcArn w.remote
  (res.1, { w with remote := res.2,
                   trace := w.trace ++ [Event.GetOpenIDConnectProvider oidcArn] })

/-! ## Requests and responses of the lifecycle verbs -/

/-- `tfsdk.CreateResourceRequest`. -/
structure tfsdk.CreateResourceRequest where
  Config : tfsdk.Config
  Plan : tfsdk.Plan

/-- `tfsdk.ReadResourceRequest`. -/
structure tfsdk.ReadResourceRequest where
  State : tfsdk.State

/-- `tfsdk.UpdateResourceRequest`. -/
structure tfsdk.UpdateResourceRequest where
  Config : tfsdk.Config
  Plan : tfsdk.Plan
  State : tfsdk.State

/-- `tfsdk.DeleteResourceRequest`. -/
structure tfsdk.DeleteResourceRequest where
  State : tfsdk.State

/-- The response of a lifecycle verb: the state to keep and the diagnostics.
The framework hands the verb a response whose state is the prior state (the
null object for a create). -/
structure tfsdk.Response where
  State : tfsdk.State
  Diagnostics : diag.Diagnostics
  deriving DecidableEq

/-- `tfsdk.CreateResourceResponse`. -/
abbrev tfsdk.CreateResourceResponse := tfsdk.Response

/-- `tfsdk.ReadResourceResponse`. -/
abbrev tfsdk.ReadResourceResponse := tfsdk.Response

/-- `tfsdk.UpdateResourceResponse`. -/
abbrev tfsdk.UpdateResourceResponse := tfsdk.Response

/-- `tfsdk.DeleteResourceResponse`. -/
abbrev tfsdk.DeleteResourceResponse := tfsdk.Response

/-! ## `internal/provider/oidc_provider_client_id_resource.go` -/

/-- `contains(s, e)`: the loop over `s` returning at the first element equal
to `e`. -/
def contains (s : List string) (e : string) : Bool :=
  match s with
  | [] => false
  | a :: rest => if a = e then true else contains rest e

/-- `addClientId`: lock, deferred unlock, one add call; its result is returned
as is. -/
def addClientId {σ : Type} (r : oidcProviderClientIdResource σ) (clientId oidcArn : string)
    (w : World σ) : Except string Unit × World σ :=
  let w := w.Lock
  let iamClient := r.provider.iamClient
  let res := World.AddClientIDToOpenIDConnectProvider iamClient clientId oidcArn w
  (res.1, res.2.Unlock)

/-- `removeClientId`: lock, deferred unlock, one remove call; its result is
returned as is. -/
def removeClientId {σ : Type} (r : oidcProviderClientIdResource σ) (clientId oidcArn : string)
    (w : World σ) : Except string Unit × World σ :=
  let w := w.Lock
  let iamClient := r.provider.iamClient
  let res := World.RemoveClientIDFromOpenIDConnectProvider iamClient clientId oidcArn w
  (res.1, res.2.Unlock)

/-- `oidcProviderClientIdResource.Create`. -/
def oidcProviderClientIdResource.Create {σ : Type} (r : oidcProviderClientIdResource σ)
    (req : tfsdk.CreateResourceRequest) (resp : tfsdk.CreateResourceResponse) (w : World σ) :
    tfsdk.CreateResourceResponse × World σ :=
  let got := tfsdk.State.Get req.Config oidcProviderClientIdResourceData.zero
  let data := got.1
  let resp := { resp with Diagnostics := resp.Diagnostics.Append got.2 }
  if resp.Diagnostics.HasError then (resp, w)
  else
    let res := addClientId r data.ClientId.Value data.OidcArn.Value w
    match res.1 with
    | .error err =>
      let diags := resp.Diagnostics.AddError "Client Error"
        ("Unable to add audience to provider, got error: " ++ err)
      ({ resp with Diagnostics := diags }, res.2)
    | .ok _ =>
      let w := res.2.tflog "trace" "created a resource"
      let set := resp.State.Set data
      ({ State := set.1, Diagnostics := resp.Diagnostics.Append set.2 }, w)

/-- `oidcProviderClientIdResource.Read`. -/
def oidcProviderClientIdResource.Read {σ : Type} (r : oidcProviderClientIdResource σ)
    (req : tfsdk.ReadResourceRequest) (resp : tfsdk.ReadResourceResponse) (w : World σ) :
    tfsdk.ReadResourceResponse × World σ :=
  let got := tfsdk.State.Get req.State oidcProviderClientIdResourceData.zero
  let data := got.1
  let resp := { resp with Diagnostics := resp.Diagnostics.Append got.2 }
  if resp.Diagnostics.HasError then (resp, w)
  else
    let plan := data
    let iamClient := r.provider.iamClient
    let res := World.GetOpenIDConnectProvider iamClient data.OidcArn.Value w
    match res.1 with
    | .error err =>
      let diags := resp.Diagnostics.AddError "Client Error"
        ("Failed retrieving current audiences, got error: " ++ err)
      ({ resp with Diagnostics := diags }, res.2)
    | .ok oidcProvider =>
      let checked : tfsdk.ReadResourceResponse × oidcProviderClientIdResourceData :=
        if !contains oidcProvider.ClientIDList data.ClientId.Value then
          let diags := resp.Diagnostics.AddWarning
            ("ClientID: " ++ data.ClientId.Value ++ " not found on provider.")
            "ClientID was already removed manually or from another script. Will skip during delete."
          ({ resp with Diagnostics := diags },
           { plan with ClientId := { plan.ClientId with Null := true } })
        else (resp, plan)
      let resp := checked.1
      let plan := checked.2
      let set := resp.State.Set plan
      ({ State := set.1, Diagnostics := resp.Diagnostics.Append set.2 }, res.2)

/-- `oidcProviderClientIdResource.Update`. -/
def oidcProviderClientIdResource.Update {σ : Type} (r : oidcProviderClientIdResource σ)
    (req : tfsdk.UpdateResourceRequest) (resp : tfsdk.UpdateResourceResponse) (w : World σ) :
    tfsdk.UpdateResourceResponse × World σ :=
  let got := tfsdk.State.Get req.Plan oidcProviderClientIdResourceData.zero
  let data := got.1
  let resp := { resp with Diagnostics := resp.Diagnostics.Append got.2 }
  if resp.Diagnostics.HasError then (resp, w)
  else
    let res := addClientId r data.ClientId.Value data.OidcArn.Value w
    match res.1 with
    | .error err =>
      let diags := resp.Diagnostics.AddError "Client Error"
        ("Unable to add audience to provider, got error: " ++ err)
      ({ resp with Diagnostics := diags }, res.2)
    | .ok _ =>
      let set := resp.State.Set data
      ({ State := set.1, Diagnostics := resp.Diagnostics.Append set.2 }, res.2)

/-- `oidcProviderClientIdResource.Delete`. -/
def oidcProviderClientIdResource.Delete {σ : Type} (r : oidcProviderClientIdResource σ)
    (req : tfsdk.DeleteResourceRequest) (resp : tfsdk.DeleteResourceResponse) (w : World σ) :
    tfsdk.DeleteResourceResponse × World σ :=
  let got := tfsdk.State.Get req.State oidcProviderClientIdResourceData.zero
  let data := got.1
  let resp := { resp with Diagnostics := resp.Diagnostics.Append got.2 }
  if resp.Diagnostics.HasError then (resp, w)
  else if !data.ClientId.Null then
    let res := removeClientId r data.ClientId.Value data.OidcArn.Value w
    match res.1 with
    | .error err =>
      let diags := resp.Diagnostics.AddError "Client Error"
        ("Unable to delete audience from provider, got error: " ++ err)
      ({ resp with Diagnostics := diags }, res.2)
    | .ok _ =>
      ({ resp with State := resp.State.RemoveResource }, res.2)
  else
    let w := w.tflog "info" "Skip deletion because already removed from audience."
    ({ resp with State := resp.State.RemoveResource }, w)

/-! ## The remote list service -/

/-- The remote lists: for every list reference, the identifiers it holds. -/
abbrev RemoteLists := string → List string

/-- A call on the remote list service. -/
inductive RemoteCall where
  | add (listRef identifier : string)
  | remove (listRef identifier : string)
  | readAll (listRef : string)
  deriving DecidableEq

/-- The lists after `add(listRef, identifier)`: the identifier is inserted into
that list and no other list changes. -/
def RemoteLists.add (s : RemoteLists) (listRef identifier : string) : RemoteLists :=
  fun l => if l = listRef then (if identifier ∈ s l then s l else s l ++ [identifier]) else s l

/-- The lists after `remove(listRef, identifier)`: the identifier is deleted
from that list and no other list changes. -/
def RemoteLists.remove (s : RemoteLists) (listRef identifier : string) : RemoteLists :=
  fun l => if l = listRef then (s l).filter (fun x => decide (x ≠ identifier)) else s l

/-- Modelled from the spec: the Remote List Service, an external collaborator
with `add(listRef, identifier) -> ok|error`, `remove(listRef, identifier) ->
ok|error` and `readAll(listRef) -> sequence-of-identifiers|error` and exact-match
membership. `faults` says which calls the service rejects, and with which
message; a rejected call leaves the lists as they are. -/
def remoteListService (faults : RemoteLists → RemoteCall → Option string) :
    iam.Client RemoteLists where
  AddClientIDToOpenIDConnectProvider := fun clientId oidcArn s =>
    match faults s (RemoteCall.add oidcArn clientId) with
    | some e => (.error e, s)
    | none => (.ok (), s.add oidcArn clientId)
  RemoveClientIDFromOpenIDConnectProvider := fun clientId oidcArn s =>
    match faults s (RemoteCall.remove oidcArn clientId) with
    | some e => (.error e, s)
    | none => (.ok (), s.remove oidcArn clientId)
  GetOpenIDConnectProvider := fun oidcArn s =>
    match faults s (RemoteCall.readAll oidcArn) with
    | some e => (.error e, s)
    | none => (.ok { ClientIDList := s oidcArn }, s)

/-- The service that rejects no call. -/
def noFaults : RemoteLists → RemoteCall → Option string :=
  fun _ _ => none

/-! ## Lock discipline on traces -/

/-- Whether an event is a remote mutation (an add or a remove call). -/
def Event.isMutation : Event → Bool
  | Event.AddClientIDToOpenIDConnectProvider _ _ => true
  | Event.RemoveClientIDFromOpenIDConnectProvider _ _ => true
  | _ => false

/-- Whether an event acquires the lock. -/
def Event.isLock : Event → Bool
  | Event.Lock => true
  | _ => false

/-- Whether an event releases the lock. -/
def Event.isUnlock : Event → Bool
  | Event.Unlock => true
  | _ => false

/-- Scans a trace, `held` saying whether the lock is held when the scan starts:
the lock is acquired only when free, released only when held, every mutation
happens while it is held, and it is free at the end. -/
def lockDiscipline (held : Bool) : List Event → Bool
  | [] => !held
  | Event.Lock :: es => !held && lockDiscipline true es
  | Event.Unlock :: es => held && lockDiscipline false es
  | Event.AddClientIDToOpenIDConnectProvider _ _ :: es => held && lockDiscipline held es
  | Event.RemoveClientIDFromOpenIDConnectProvider _ _ :: es => held && lockDiscipline held es
  | Event.GetOpenIDConnectProvider _ :: es => lockDiscipline held es

/-! ## Schema of the resource -/

/-- The attribute types the schema uses (`types.StringType`). -/
inductive attr.Kind where
  | StringType
  deriving DecidableEq

/-- The plan modifiers the schema uses (`tfsdk.RequiresReplace()`). -/
inductive tfsdk.AttributePlanModifier where
  | RequiresReplace
  deriving DecidableEq

/-- The fields of `tfsdk.Attribute` the schema sets. -/
structure tfsdk.Attribute where
  MarkdownDescription : string
  Optional : Bool
  Required : Bool
  AttrType : attr.Kind
  PlanModifiers : List tfsdk.AttributePlanModifier
  deriving DecidableEq

/-- The fields of `tfsdk.Schema` the schema sets; the Go map of attributes is an
association list. -/
structure tfsdk.Schema where
  MarkdownDescription : string
  Attributes : List (string × tfsdk.Attribute)
  deriving DecidableEq

/-- The resource type (`oidcProviderClientIdResourceType struct{}`). -/
structure oidcProviderClientIdResourceType where
  deriving DecidableEq

/-- `oidcProviderClientIdResourceType.GetSchema`. -/
def oidcProviderClientIdResourceType.GetSchema (_t : oidcProviderClientIdResourceType) :
    tfsdk.Schema × diag.Diagnostics :=
  ({ MarkdownDescription := "Resource for synching the audience/ClientID in the AWS OIDC providers. The official AWS provider does currently not support this feature therefore this resource.",
     Attributes := [
       ("client_id",
        { MarkdownDescription := "The ClientID/Audience to be added to the OIDC provider.",
          Optional := false,
          Required := true,
          AttrType := attr.Kind.StringType,
          PlanModifiers := [tfsdk.AttributePlanModifier.RequiresReplace] }),
       ("oidc_arn",
        { MarkdownDescription := "The target OIDC provider ARN where the ClientID should be added.",
          Optional := false,
          Required := true,
          AttrType := attr.Kind.StringType,
          PlanModifiers := [] })] }, [])

/-- The value of the attribute with a given name, by the `tfsdk` tags of
`oidcProviderClientIdResourceData`. -/
def oidcProviderClientIdResourceData.attribute (d : oidcProviderClientIdResourceData)
    (name : string) : Option types.String :=
  if name = "client_id" then some d.ClientId
  else if name = "oidc_arn" then some d.OidcArn
  else none

/-- What a plan modifier decides when an existing resource is planned for an
update: `RequiresReplace` asks for replacement exactly when the planned value
of its attribute differs from the value in state. -/
def tfsdk.AttributePlanModifier.Modify (m : tfsdk.AttributePlanModifier)
    (attributeState attributePlan : types.String) : Bool :=
  match m with
  | tfsdk.AttributePlanModifier.RequiresReplace => decide (attributePlan ≠ attributeState)

/-- The attributes of a schema for which some plan modifier asks for
replacement, given the prior state and the plan of an update. -/
def tfsdk.Schema.requiresReplace (s : tfsdk.Schema)
    (prior planned : oidcProviderClientIdResourceData) : List string :=
  (s.Attributes.filter (fun a =>
    match prior.attribute a.1, planned.attribute a.1 with
    | some x, some y => a.2.PlanModifiers.any (fun m => m.Modify x y)
    | _, _ => false)).map Prod.fst

/-! ## Text of diagnostics -/

/-- Whether `s` occurs in `t` as a contiguous substring. -/
def isSubstring (s t : string) : Bool :=
  decide (s.data <:+: t.data)

/-- Whether a diagnostic mentions `s` in its summary or in its detail. -/
def diag.Diagnostic.mentions (d : diag.Diagnostic) (s : string) : Bool :=
  isSubstring s d.Summary || isSubstring s d.Detail

/-! ## `blackdarkaws/resource_aws_oidc_provider_client_id.go` -/

/-- How a call of a Go function ends: it returns, or the goroutine panics. -/
inductive Outcome (α : Type) where
  | returned (a : α)
  | panicked (msg : string)

/-- The message of the runtime panic for the dereference of a nil pointer. -/
def nilPointerDereference : string :=
  "runtime error: invalid memory address or nil pointer dereference"

/-- Severity of a protocol diagnostic. -/
inductive tfprotov6.DiagnosticSeverity where
  | DiagnosticSeverityError
  | DiagnosticSeverityWarning
  deriving DecidableEq

/-- The protocol diagnostic `tfprotov6.Diagnostic`. -/
structure tfprotov6.Diagnostic where
  Severity : tfprotov6.DiagnosticSeverity
  Summary : string
  Detail : string
  deriving DecidableEq

/-- The AWS configuration `aws.Config` the provider keeps after `Configure`;
only its identity matters here. -/
structure aws.Config where
  Region : string
  deriving DecidableEq

/-- The provider of package `blackdarkaws`: `client` is a pointer, `none` when
nil (its value before `Configure` has succeeded). -/
structure blackdarkaws.provider where
  configured : Bool
  client : Option aws.Config
  deriving DecidableEq

/-- The tracked attributes (`AwsOIDCProviderClientIDEntry` of `models.go`). -/
structure blackdarkaws.AwsOIDCProviderClientIDEntry where
  ClientID : types.String
  OIDCArn : types.String
  deriving DecidableEq

/-- The zero value of `AwsOIDCProviderClientIDEntry`. -/
def blackdarkaws.AwsOIDCProviderClientIDEntry.zero : blackdarkaws.AwsOIDCProviderClientIDEntry :=
  { ClientID := { Unknown := false, Null := false, Value := "" },
    OIDCArn := { Unknown := false, Null := false, Value := "" } }

/-- A plan or state value as package `blackdarkaws` sees it: `none` is the null
object. -/
structure blackdarkaws.State where
  Raw : Option blackdarkaws.AwsOIDCProviderClientIDEntry
  deriving DecidableEq

/-- `Get(ctx, &target)` of a plan or state: the decoded struct and the error,
`none` when nil; only the null object does not fit the struct. -/
def blackdarkaws.State.Get (s : blackdarkaws.State)
    (target : blackdarkaws.AwsOIDCProviderClientIDEntry) :
    blackdarkaws.AwsOIDCProviderClientIDEntry × Option string :=
  match s.Raw with
  | some d => (d, none)
  | none => (target, some "unhandled null value")

/-- `State.Set(ctx, result)`: stores the struct; the error is nil. -/
def blackdarkaws.State.Set (_s : blackdarkaws.State)
    (result : blackdarkaws.AwsOIDCProviderClientIDEntry) : blackdarkaws.State × Option string :=
  ({ Raw := some result }, none)

/-- `State.RemoveResource(ctx)`. -/
def blackdarkaws.State.RemoveResource (_s : blackdarkaws.State) : blackdarkaws.State :=
  { Raw := none }

/-- The requests of package `blackdarkaws`: the plan (create, update) and the
state (read, delete). -/
structure blackdarkaws.Request where
  Plan : blackdarkaws.State
  State : blackdarkaws.State

/-- The responses of package `blackdarkaws`. -/
structure blackdarkaws.Response where
  State : blackdarkaws.State
  Diagnostics : List tfprotov6.Diagnostic
  deriving DecidableEq

/-- `resp.Diagnostics = append(resp.Diagnostics, &tfprotov6.Diagnostic{...})`
with severity error. -/
def blackdarkaws.Response.appendError (resp : blackdarkaws.Response) (summary detail : string) :
    blackdarkaws.Response :=
  { resp with Diagnostics := resp.Diagnostics ++
      [{ Severity := tfprotov6.DiagnosticSeverity.DiagnosticSeverityError,
         Summary := summary, Detail := detail }] }

/-- The detail of the "Provider not configured" diagnostic. -/
def blackdarkaws.notConfiguredDetail : string :=
  "The provider hasn't been configured before apply, likely because it depends on an unknown value from another resource. This leads to weird stuff happening, so we'd prefer if you didn't do that. Thanks!"

/-- The resource of package `blackdarkaws`
(`resourceAwsOidcProviderClientIdEntry`). -/
structure blackdarkaws.resourceAwsOidcProviderClientIdEntry where
  p : blackdarkaws.provider
  deriving DecidableEq

/-- `contains` of package `blackdarkaws`. -/
def blackdarkaws.contains (s : List string) (e : string) : Bool :=
  match s with
  | [] => false
  | a :: rest => if a = e then true else blackdarkaws.contains rest e

/-- `resourceAwsOidcProviderClientIdEntry.Create`; `NewFromConfig` is
`iam.NewFromConfig`, and `*r.p.client` panics when the pointer is nil. -/
def blackdarkaws.resourceAwsOidcProviderClientIdEntry.Create {σ : Type}
    (NewFromConfig : aws.Config → iam.Client σ)
    (r : blackdarkaws.resourceAwsOidcProviderClientIdEntry)
    (req : blackdarkaws.Request) (resp : blackdarkaws.Response) (w : World σ) :
    Outcome (blackdarkaws.Response × World σ) :=
  if !r.p.configured then
    Outcome.returned
      (resp.appendError "Provider not configured" blackdarkaws.notConfiguredDetail, w)
  else
    let got := req.Plan.Get blackdarkaws.AwsOIDCProviderClientIDEntry.zero
    let plan := got.1
    match got.2 with
    | some err =>
      Outcome.returned (resp.appendError "Error reading plan"
        ("An unexpected error was encountered while reading the plan: " ++ err), w)
    | none =>
      match r.p.client with
      | none => Outcome.panicked nilPointerDereference
      | some cfg =>
        let iamClient := NewFromConfig cfg
        let res := World.AddClientIDToOpenIDConnectProvider iamClient
          plan.ClientID.Value plan.OIDCArn.Value w
        match res.1 with
        | .error err =>
          Outcome.returned (resp.appendError "Failed adding ClientID"
            ("An unexpected error was encountered while adding ClientID: " ++ err), res.2)
        | .ok _ =>
          let result : blackdarkaws.AwsOIDCProviderClientIDEntry :=
            { ClientID := plan.ClientID, OIDCArn := plan.OIDCArn }
          let set := resp.State.Set result
          match set.2 with
          | some err =>
            Outcome.returned (resp.appendError "Error saving state"
              ("Could not set state, unexpected error: " ++ err), res.2)
          | none => Outcome.returned ({ resp with State := set.1 }, res.2)

/-- `resourceAwsOidcProviderClientIdEntry.Read`. -/
def blackdarkaws.resourceAwsOidcProviderClientIdEntry.Read {σ : Type}
    (NewFromConfig : aws.Config → iam.Client σ)
    (r : blackdarkaws.resourceAwsOidcProviderClientIdEntry)
    (req : blackdarkaws.Request) (resp : blackdarkaws.Response) (w : World σ) :
    Outcome (blackdarkaws.Response × World σ) :=
  let got := req.State.Get blackdarkaws.AwsOIDCProviderClientIDEntry.zero
  let state := got.1
  match got.2 with
  | some err =>
    Outcome.returned (resp.appendError "Error reading state"
      ("An unexpected error was encountered while reading the state: " ++ err), w)
  | none =>
    let orderID := state.ClientID.Value
    let oidcArn := state.OIDCArn
    match r.p.client with
    | none => Outcome.panicked nilPointerDereference
    | some cfg =>
      let iamClient := NewFromConfig cfg
      let res := World.GetOpenIDConnectProvider iamClient oidcArn.Value w
      match res.1 with
      | .error err =>
        Outcome.returned (resp.appendError "Error requesting OpenIDProvider"
          ("An unexpected error was encountered while requesting oidc provider for client ids: "
            ++ err), res.2)
      | .ok oidcProvider =>
        let newOrder :=
          if blackdarkaws.contains oidcProvider.ClientIDList orderID then state
          else blackdarkaws.AwsOIDCProviderClientIDEntry.zero
        let set := resp.State.Set newOrder
        match set.2 with
        | some err =>
          Outcome.returned (resp.appendError "Error setting state"
            ("Unexpected error encountered trying to set new state: " ++ err), res.2)
        | none => Outcome.returned ({ resp with State := set.1 }, res.2)

/-- `resourceAwsOidcProviderClientIdEntry.Update`. -/
def blackdarkaws.resourceAwsOidcProviderClientIdEntry.Update {σ : Type}
    (NewFromConfig : aws.Config → iam.Client σ)
    (r : blackdarkaws.resourceAwsOidcProviderClientIdEntry)
    (req : blackdarkaws.Request) (resp : blackdarkaws.Response) (w : World σ) :
    Outcome (blackdarkaws.Response × World σ) :=
  if !r.p.configured then
    Outcome.returned
      (resp.appendError "Provider not configured" blackdarkaws.notConfiguredDetail, w)
  else
    let got := req.Plan.Get blackdarkaws.AwsOIDCProviderClientIDEntry.zero
    let plan := got.1
    match got.2 with
    | some err =>
      Outcome.returned (resp.appendError "Error reading plan"
        ("An unexpected error was encountered while reading the plan: " ++ err), w)
    | none =>
      match r.p.client with
      | none => Outcome.panicked nilPointerDereference
      | some cfg =>
        let iamClient := NewFromConfig cfg
        let res := World.AddClientIDToOpenIDConnectProvider iamClient
          plan.ClientID.Value plan.OIDCArn.Value w
        match res.1 with
        | .error err =>
          Outcome.returned (resp.appendError "Failed adding ClientID"
            ("An unexpected error was encountered while adding ClientID: " ++ err), res.2)
        | .ok _ =>
          let result : blackdarkaws.AwsOIDCProviderClientIDEntry :=
            { ClientID := plan.ClientID, OIDCArn := plan.OIDCArn }
          let set := resp.State.Set result
          match set.2 with
          | some err =>
            Outcome.returned (resp.appendError "Error saving state"
              ("Could not set state, unexpected error: " ++ err), res.2)
          | none => Outcome.returned ({ resp with State := set.1 }, res.2)

/-- `resourceAwsOidcProviderClientIdEntry.Delete`. -/
def blackdarkaws.resourceAwsOidcProviderClientIdEntry.Delete {σ : Type}
    (NewFromConfig : aws.Config → iam.Client σ)
    (r : blackdarkaws.resourceAwsOidcProviderClientIdEntry)
    (req : blackdarkaws.Request) (resp : blackdarkaws.Response) (w : World σ) :
    Outcome (blackdarkaws.Response × World σ) :=
  let got := req.State.Get blackdarkaws.AwsOIDCProviderClientIDEntry.zero
  let state := got.1
  match got.2 with
  | some err =>
    Outcome.returned (resp.appendError "Error reading state"
      ("An unexpected error was encountered while reading the state: " ++ err), w)
  | none =>
    let orderID := state.ClientID.Value
    let oidcArn := state.OIDCArn.Value
    match r.p.client with
    | none => Outcome.panicked nilPointerDereference
    | some cfg =>
      let iamClient := NewFromConfig cfg
      let res := World.RemoveClientIDFromOpenIDConnectProvider iamClient orderID oidcArn w
      match res.1 with
      | .error err =>
        Outcome.returned (resp.appendError "Failed deleting client id from oidc provider"
          ("An unexpected error was encountered while deleting client id: " ++ err), res.2)
      | .ok _ =>
        Outcome.returned ({ resp with State := resp.State.RemoveResource }, res.2)

/-! ## Import -/

/-- `tfsdk.ImportResourceStateRequest`: the identifier given to the import. -/
structure tfsdk.ImportResourceStateRequest where
  ID : string
  deriving DecidableEq

/-- `tfsdk.ImportResourceStateResponse`; the framework hands the verb the null
object as state. -/
abbrev tfsdk.ImportResourceStateResponse := tfsdk.Response

/-- The object in which every attribute is null. -/
def oidcProviderClientIdResourceData.null : oidcProviderClientIdResourceData :=
  { ClientId := { Unknown := false, Null := true, Value := "" },
    OidcArn := { Unknown := false, Null := true, Value := "" } }

/-- The struct with the attribute of a given name set to a known string, by the
`tfsdk` tags of `oidcProviderClientIdResourceData`. -/
def oidcProviderClientIdResourceData.setAttribute (d : oidcProviderClientIdResourceData)
    (name val : string) : oidcProviderClientIdResourceData :=
  if name = "client_id" then
    { d with ClientId := { Unknown := false, Null := false, Value := val } }
  else if name = "oidc_arn" then
    { d with OidcArn := { Unknown := false, Null := false, Value := val } }
  else d

/-- The diagnostic `State.SetAttribute` reports for a path that is not in the
schema. `pathError` is the text of the framework's error for that path (the
error of `Schema.AttributeTypeAtPath`), which is not part of these sources. -/
def tfsdk.stateWriteError (pathError : string) : diag.Diagnostic :=
  { Severity := .Error, Summary := "State Write Error",
    Detail := "An unexpected error was encountered trying to write an attribute to the state. This is always an error in the provider. Please report the following to the provider developer:\n\n" ++ "error getting attribute type in schema: " ++ pathError }

/-- `State.SetAttribute(ctx, path, val)` for a path of one attribute name and a
string value, on a state with the given schema: a name the schema does not have
is an error and leaves the state as it is; otherwise the attribute is written
(into the object of null attributes when the state is the null object).
`pathError` gives, for a path, the text of the framework's error for it. -/
def tfsdk.State.SetAttribute (schema : tfsdk.Schema) (pathError : string → string)
    (s : tfsdk.State) (path val : string) : tfsdk.State × diag.Diagnostics :=
  match schema.Attributes.lookup path with
  | none => (s, [tfsdk.stateWriteError (pathError path)])
  | some _ =>
    match s.Raw with
    | none => ({ Raw := some (oidcProviderClientIdResourceData.null.setAttribute path val) }, [])
    | some d => ({ Raw := some (d.setAttribute path val) }, [])

/-- `tfsdk.ResourceImportStatePassthroughID(ctx, path, req, resp)`: writes the
identifier of the request to the state at `path` and appends the diagnostics
of that write. It takes no client and has no access to the world. -/
def tfsdk.ResourceImportStatePassthroughID (schema : tfsdk.Schema)
    (pathError : string → string) (path : string)
    (req : tfsdk.ImportResourceStateRequest) (resp : tfsdk.ImportResourceStateResponse) :
    tfsdk.ImportResourceStateResponse :=
  let set := resp.State.SetAttribute schema pathError path req.ID
  { State := set.1, Diagnostics := resp.Diagnostics.Append set.2 }

/-- `oidcProviderClientIdResource.ImportState`: the pass-through of the
identifier at the attribute path `id`; the schema of the response state is the
one of `GetSchema`. -/
def oidcProviderClientIdResource.ImportState {σ : Type} (pathError : string → string)
    (_r : oidcProviderClientIdResource σ)
    (req : tfsdk.ImportResourceStateRequest) (resp : tfsdk.ImportResourceStateResponse)
    (w : World σ) : tfsdk.ImportResourceStateResponse × World σ :=
  (tfsdk.ResourceImportStatePassthroughID
    (oidcProviderClientIdResourceType.GetSchema {}).1 pathError "id" req resp, w)

/-! ## Sample values -/

/-- A tracked fact: identifier `client-42` on list `list-X`. -/
def sampleFact : oidcProviderClientIdResourceData :=
  { ClientId := { Unknown := false, Null := false, Value := "client-42" },
    OidcArn := { Unknown := false, Null := false, Value := "list-X" } }

/-- The fact `sampleFact` as the state holds it after a read found the
identifier gone: `client_id` is null, `oidc_arn` is as before. -/
def sampleNulledFact : oidcProviderClientIdResourceData :=
  { ClientId := { Unknown := false, Null := true, Value := "" },
    OidcArn := { Unknown := false, Null := false, Value := "list-X" } }

/-- The world in which every remote list is empty and nothing has happened. -/
def emptyWorld : World RemoteLists :=
  { remote := fun _ => [], trace := [], log := [] }

/-- The world in which `list-X` holds `other` and `client-42` and every other
list is empty. -/
def presentWorld : World RemoteLists :=
  { remote := fun l => if l = "list-X" then ["other", "client-42"] else [],
    trace := [], log := [] }

/-- The response a verb is handed for the tracked fact `sampleFact`: the prior
state and no diagnostics. -/
def sampleResponse : tfsdk.Response :=
  { State := { Raw := some sampleFact }, Diagnostics := [] }

/-- A resource whose remote service accepts every call. -/
def acceptingResource : oidcProviderClientIdResource RemoteLists :=
  { provider := { iamClient := remoteListService noFaults } }

/-- A resource whose remote service rejects every call with `AccessDenied`. -/
def rejectingResource : oidcProviderClientIdResource RemoteLists :=
  { provider := { iamClient := remoteListService (fun _ _ => some "AccessDenied") } }

/-- The response an import is handed: the null object and no diagnostics. -/
def sampleImportResponse : tfsdk.ImportResourceStateResponse :=
  { State := { Raw := none }, Diagnostics := [] }

/-- The tracked fact `sampleFact` as package `blackdarkaws` holds it. -/
def blackdarkaws.sampleEntry : blackdarkaws.AwsOIDCProviderClientIDEntry :=
  { ClientID := { Unknown := false, Null := false, Value := "client-42" },
    OIDCArn := { Unknown := false, Null := false, Value := "list-X" } }

/-- A request of package `blackdarkaws` whose plan and state hold `sampleEntry`. -/
def blackdarkaws.sampleRequest : blackdarkaws.Request :=
  { Plan := { Raw := some blackdarkaws.sampleEntry },
    State := { Raw := some blackdarkaws.sampleEntry } }

/-- The response a verb of package `blackdarkaws` is handed for `sampleEntry`. -/
def blackdarkaws.sampleResponse : blackdarkaws.Response :=
  { State := { Raw := some blackdarkaws.sampleEntry }, Diagnostics := [] }

/-- The resource of a provider on which `Configure` has not succeeded: the
value `New` returns, `&provider{}`. -/
def blackdarkaws.unconfigured : blackdarkaws.resourceAwsOidcProviderClientIdEntry :=
  { p := { configured := false, client := none } }

/-! # Properties -/

/-! ## Diagnostics and membership -/

theorem diag.Diagnostics.Append_nil (ds : diag.Diagnostics) :
    diag.Diagnostics.Append ds [] = ds := rfl

theorem diag.Diagnostics.Append_singleton (ds : diag.Diagnostics) (d : diag.Diagnostic) :
    diag.Diagnostics.Append ds [d] = if diag.Diagnostics.Contains ds d then ds else ds ++ [d] :=
  rfl

theorem diag.Diagnostics.mem_Append_singleton (ds : diag.Diagnostics) (d : diag.Diagnostic) :
    d ∈ diag.Diagnostics.Append ds [d] := by
  rw [diag.Diagnostics.Append_singleton]
  by_cases h : diag.Diagnostics.Contains ds d = true
  · simp only [h, if_true]
    simpa [diag.Diagnostics.Contains] using h
  · simp [h]

theorem diag.Diagnostics.HasError_AddError (ds : diag.Diagnostics) (summary detail : string) :
    (diag.Diagnostics.AddError ds summary detail).HasError = true := by
  unfold diag.Diagnostics.HasError diag.Diagnostics.AddError
  rw [List.any_eq_true]
  exact ⟨_, diag.Diagnostics.mem_Append_singleton ds _, by simp⟩

theorem contains_iff (s : List string) (e : string) : contains s e = true ↔ e ∈ s := by
  induction s with
  | nil => simp [contains]
  | cons a rest ih =>
    by_cases h : a = e
    · simp [contains, h]
    · simp [contains, h, ih, Ne.symm h]

theorem contains_eq_false_of_not_mem (s : List string) (e : string) (h : e ∉ s) :
    contains s e = false := by
  cases hc : contains s e
  · rfl
  · exact absurd ((contains_iff s e).1 hc) h

/-! ## Retract after drift -/

/-- C1. For every tracked state whose `client_id` is marked null, whatever its
value and `oidc_arn` are, and every response without an error that `Delete` is
handed: `Delete` issues no remote call (trace and remote store are as before),
adds no diagnostic, and removes the resource from state. -/
theorem Delete_of_null_client_id_skips_remote {σ : Type} (r : oidcProviderClientIdResource σ)
    (data : oidcProviderClientIdResourceData) (resp : tfsdk.DeleteResourceResponse)
    (w : World σ) (hnull : data.ClientId.Null = true)
    (hresp : resp.Diagnostics.HasError = false) :
    (r.Delete { State := { Raw := some data } } resp w).2.trace = w.trace ∧
    (r.Delete { State := { Raw := some data } } resp w).2.remote = w.remote ∧
    (r.Delete { State := { Raw := some data } } resp w).1.Diagnostics = resp.Diagnostics ∧
    (r.Delete { State := { Raw := some data } } resp w).1.State = { Raw := none } := by
  simp [oidcProviderClientIdResource.Delete, tfsdk.State.Get, diag.Diagnostics.Append_nil,
    hresp, hnull, World.tflog, tfsdk.State.RemoveResource]

/-- Witness of C1: a state nulled by a drift read, against a service that would
reject every call. -/
theorem Delete_of_null_client_id_skips_remote_witness :
    sampleNulledFact.ClientId.Null = true ∧
    (diag.Diagnostics.HasError [] = false) ∧
    (rejectingResource.Delete { State := { Raw := some sampleNulledFact } }
      { State := { Raw := some sampleNulledFact }, Diagnostics := [] } emptyWorld).2.trace
      = emptyWorld.trace ∧
    (rejectingResource.Delete { State := { Raw := some sampleNulledFact } }
      { State := { Raw := some sampleNulledFact }, Diagnostics := [] } emptyWorld).2.remote
      = emptyWorld.remote ∧
    (rejectingResource.Delete { State := { Raw := some sampleNulledFact } }
      { State := { Raw := some sampleNulledFact }, Diagnostics := [] } emptyWorld).1.Diagnostics
      = [] ∧
    (rejectingResource.Delete { State := { Raw := some sampleNulledFact } }
      { State := { Raw := some sampleNulledFact }, Diagnostics := [] } emptyWorld).1.State
      = { Raw := none } :=
  ⟨rfl, rfl, Delete_of_null_client_id_skips_remote rejectingResource sampleNulledFact
    { State := { Raw := some sampleNulledFact }, Diagnostics := [] } emptyWorld rfl rfl⟩

/-! ## Verify and drift detection -/

theorem types.String.stored_nulled (s : types.String) :
    types.String.stored { s with Null := true } = { Unknown := false, Null := true, Value := "" } := by
  simp [types.String.stored]

theorem types.String.stored_stored (s : types.String) : s.stored.stored = s.stored := by
  unfold types.String.stored
  by_cases hn : s.Null = true
  · simp [hn]
  · by_cases hu : s.Unknown = true
    · simp [hn, hu]
    · simp [hn, hu]

theorem oidcProviderClientIdResourceData.stored_idempotent (d : oidcProviderClientIdResourceData) :
    d.stored.stored = d.stored := by
  simp [oidcProviderClientIdResourceData.stored, types.String.stored_stored]

/-- C2. For every tracked state (one the state can hold: `data.stored = data`)
and every list of identifiers returned by a successful remote read, `Read` on a
fresh response (a) leaves no error; (b) if the tracked `client_id` is an element
of the list, adds no diagnostic and writes the state back unchanged; (c)
otherwise adds exactly one diagnostic, a warning, and writes back the state with
`client_id` null and `oidc_arn` unchanged. `contains s e` is true exactly when
`e` is an element of `s`. -/
theorem Read_detects_drift {σ : Type} (r : oidcProviderClientIdResource σ)
    (data : oidcProviderClientIdResourceData) (st : tfsdk.State) (w : World σ)
    (ids : List string)
    (hstate : data.stored = data)
    (hread : (r.provider.iamClient.GetOpenIDConnectProvider data.OidcArn.Value w.remote).1 =
      Except.ok { ClientIDList := ids }) :
    (r.Read { State := { Raw := some data } }
      { State := st, Diagnostics := [] } w).1.Diagnostics.HasError = false ∧
    (data.ClientId.Value ∈ ids →
      (r.Read { State := { Raw := some data } } { State := st, Diagnostics := [] } w).1 =
        { State := { Raw := some data }, Diagnostics := [] }) ∧
    (data.ClientId.Value ∉ ids →
      (r.Read { State := { Raw := some data } } { State := st, Diagnostics := [] } w).1 =
        { State := { Raw := some { ClientId := { Unknown := false, Null := true, Value := "" },
                                   OidcArn := data.OidcArn } },
          Diagnostics :=
            [{ Severity := diag.Severity.Warning,
               Summary := "ClientID: " ++ data.ClientId.Value ++ " not found on provider.",
               Detail := "ClientID was already removed manually or from another script. Will skip during delete." }] }) ∧
    (∀ (s : List string) (e : string), contains s e = true ↔ e ∈ s) := by
  have harn : data.OidcArn.stored = data.OidcArn :=
    congrArg oidcProviderClientIdResourceData.OidcArn hstate
  have hin : data.ClientId.Value ∈ ids →
      (r.Read { State := { Raw := some data } } { State := st, Diagnostics := [] } w).1 =
        { State := { Raw := some data }, Diagnostics := [] } := by
    intro hm
    have hc := (contains_iff ids data.ClientId.Value).2 hm
    simp [oidcProviderClientIdResource.Read, tfsdk.State.Get, tfsdk.State.Set,
      diag.Diagnostics.Append_nil, diag.Diagnostics.HasError, World.GetOpenIDConnectProvider,
      hread, hc, hstate]
  have hout : data.ClientId.Value ∉ ids →
      (r.Read { State := { Raw := some data } } { State := st, Diagnostics := [] } w).1 =
        { State := { Raw := some { ClientId := { Unknown := false, Null := true, Value := "" },
                                   OidcArn := data.OidcArn } },
          Diagnostics :=
            [{ Severity := diag.Severity.Warning,
               Summary := "ClientID: " ++ data.ClientId.Value ++ " not found on provider.",
               Detail := "ClientID was already removed manually or from another script. Will skip during delete." }] } := by
    intro hm
    have hc := contains_eq_false_of_not_mem ids data.ClientId.Value hm
    simp [oidcProviderClientIdResource.Read, tfsdk.State.Get, tfsdk.State.Set,
      diag.Diagnostics.Append_nil, diag.Diagnostics.HasError, World.GetOpenIDConnectProvider,
      hread, hc, diag.Diagnostics.AddWarning, diag.Diagnostics.Append_singleton,
      diag.Diagnostics.Contains, oidcProviderClientIdResourceData.stored,
      types.String.stored_nulled, harn]
  refine ⟨?_, hin, hout, contains_iff⟩
  by_cases hm : data.ClientId.Value ∈ ids
  · rw [hin hm]; rfl
  · rw [hout hm]; rfl

/-- Witness of C2, on both branches: with `other` and `client-42` on `list-X`
the read of `sampleFact` writes it back as it is; with every list empty it
writes `client_id` null and adds the warning. -/
theorem Read_detects_drift_witness :
    sampleFact.stored = sampleFact ∧
    ((acceptingResource.provider.iamClient.GetOpenIDConnectProvider sampleFact.OidcArn.Value
        presentWorld.remote).1 = Except.ok { ClientIDList := ["other", "client-42"] } ∧
      sampleFact.ClientId.Value ∈ ["other", "client-42"] ∧
      (acceptingResource.Read { State := { Raw := some sampleFact } }
        { State := { Raw := some sampleFact }, Diagnostics := [] } presentWorld).1 =
        { State := { Raw := some sampleFact }, Diagnostics := [] }) ∧
    ((acceptingResource.provider.iamClient.GetOpenIDConnectProvider sampleFact.OidcArn.Value
        emptyWorld.remote).1 = Except.ok { ClientIDList := [] } ∧
      sampleFact.ClientId.Value ∉ ([] : List string) ∧
      (acceptingResource.Read { State := { Raw := some sampleFact } }
        { State := { Raw := some sampleFact }, Diagnostics := [] } emptyWorld).1 =
        { State := { Raw := some sampleNulledFact },
          Diagnostics :=
            [{ Severity := diag.Severity.Warning,
               Summary := "ClientID: client-42 not found on provider.",
               Detail := "ClientID was already removed manually or from another script. Will skip during delete." }] }) :=
  ⟨by decide,
    ⟨rfl, by decide,
      (Read_detects_drift acceptingResource sampleFact { Raw := some sampleFact } presentWorld
        ["other", "client-42"] (by decide) rfl).2.1 (by decide)⟩,
    ⟨rfl, by simp,
      (Read_detects_drift acceptingResource sampleFact { Raw := some sampleFact } emptyWorld
        [] (by decide) rfl).2.2.1 (by simp)⟩⟩

/-! ## End-to-end drift scenario -/

/-- C3. Against a remote list service that rejects no call, for every
identifier `i` and list reference `L` whose remote list is empty at the start:
`Create(i, L)` returns without diagnostic, records the fact and `i` is in the
list; a following `Read` returns without diagnostic and leaves the tracked state
as it is; after `i` is removed from `L` externally, a following `Read` returns
one warning and a state with `client_id` null; a following `Delete` on
that state returns without diagnostic, removes the tracked fact, and leaves
trace and remote lists untouched (no remote remove call). -/
theorem drift_scenario (i L : string) (w : World RemoteLists) (hempty : w.remote L = []) :
    let fact : oidcProviderClientIdResourceData :=
      { ClientId := { Unknown := false, Null := false, Value := i },
        OidcArn := { Unknown := false, Null := false, Value := L } }
    let created := acceptingResource.Create
      { Config := { Raw := some fact }, Plan := { Raw := some fact } }
      { State := { Raw := none }, Diagnostics := [] } w
    let verified := acceptingResource.Read { State := created.1.State }
      { State := created.1.State, Diagnostics := [] } created.2
    let drifted : World RemoteLists :=
      { verified.2 with remote := verified.2.remote.remove L i }
    let stale := acceptingResource.Read { State := verified.1.State }
      { State := verified.1.State, Diagnostics := [] } drifted
    let retracted := acceptingResource.Delete { State := stale.1.State }
      { State := stale.1.State, Diagnostics := [] } stale.2
    (created.1 = { State := { Raw := some fact }, Diagnostics := [] } ∧
      created.2.remote L = [i]) ∧
    verified.1 = { State := { Raw := some fact }, Diagnostics := [] } ∧
    (i ∉ drifted.remote L ∧
      stale.1 =
        { State := { Raw := some { ClientId := { Unknown := false, Null := true, Value := "" },
                                   OidcArn := { Unknown := false, Null := false, Value := L } } },
          Diagnostics :=
            [{ Severity := diag.Severity.Warning,
               Summary := "ClientID: " ++ i ++ " not found on provider.",
               Detail := "ClientID was already removed manually or from another script. Will skip during delete." }] }) ∧
    (retracted.1 = { State := { Raw := none }, Diagnostics := [] } ∧
      retracted.2.trace = stale.2.trace ∧
      retracted.2.remote = stale.2.remote) := by
  intro fact created verified drifted stale retracted
  have hc : created = ({ State := { Raw := some fact }, Diagnostics := [] },
      { remote := w.remote.add L i,
        trace := w.trace ++ [Event.Lock, Event.AddClientIDToOpenIDConnectProvider i L, Event.Unlock],
        log := w.log ++ [("trace", "created a resource")] }) := by
    simp [created, fact, acceptingResource, oidcProviderClientIdResource.Create, tfsdk.State.Get,
      tfsdk.State.Set, oidcProviderClientIdResourceData.stored, types.String.stored,
      diag.Diagnostics.Append_nil, diag.Diagnostics.HasError, addClientId,
      World.AddClientIDToOpenIDConnectProvider, World.Lock, World.Unlock, World.tflog,
      remoteListService, noFaults]
  have hL : (w.remote.add L i) L = [i] := by simp [RemoteLists.add, hempty]
  have hv : verified = ({ State := { Raw := some fact }, Diagnostics := [] },
      { created.2 with trace := created.2.trace ++ [Event.GetOpenIDConnectProvider L] }) := by
    simp [verified, hc, fact, acceptingResource, oidcProviderClientIdResource.Read,
      tfsdk.State.Get, tfsdk.State.Set, oidcProviderClientIdResourceData.stored, types.String.stored,
      diag.Diagnostics.Append_nil, diag.Diagnostics.HasError,
      World.GetOpenIDConnectProvider, remoteListService, noFaults, hL, contains]
  have hd : drifted.remote L = [] := by
    simp [drifted, hv, hc, RemoteLists.remove, hL]
  have hd2 : created.2.remote.remove L i L = [] := by
    simp [hc, RemoteLists.remove, hL]
  have hs : stale.1 = ⟨⟨some ⟨⟨false, true, ""⟩, ⟨false, false, L⟩⟩⟩,
      [⟨diag.Severity.Warning, "ClientID: " ++ i ++ " not found on provider.",
        "ClientID was already removed manually or from another script. Will skip during delete."⟩]⟩ := by
    simp [stale, hv, fact, acceptingResource, oidcProviderClientIdResource.Read,
      tfsdk.State.Get, tfsdk.State.Set, oidcProviderClientIdResourceData.stored, types.String.stored,
      diag.Diagnostics.Append_nil, diag.Diagnostics.HasError,
      World.GetOpenIDConnectProvider, remoteListService, noFaults, hd2, contains,
      diag.Diagnostics.AddWarning, diag.Diagnostics.Append_singleton, diag.Diagnostics.Contains]
  have hr : retracted = ({ State := { Raw := none }, Diagnostics := [] },
      { stale.2 with log := stale.2.log ++
          [("info", "Skip deletion because already removed from audience.")] }) := by
    simp [retracted, hs, acceptingResource, oidcProviderClientIdResource.Delete,
      tfsdk.State.Get, diag.Diagnostics.Append_nil, diag.Diagnostics.HasError,
      World.tflog, tfsdk.State.RemoveResource]
  refine ⟨⟨by rw [hc], by rw [hc]; exact hL⟩, by rw [hv], ⟨by rw [hd]; simp, by rw [hs]⟩, ?_⟩
  rw [hr]
  exact ⟨rfl, rfl, rfl⟩

/-- Witness of C3: `client-42` on `list-X`, every remote list empty at the
start. -/
theorem drift_scenario_witness :
    emptyWorld.remote "list-X" = [] ∧
    (let fact : oidcProviderClientIdResourceData :=
      { ClientId := { Unknown := false, Null := false, Value := "client-42" },
        OidcArn := { Unknown := false, Null := false, Value := "list-X" } }
    let created := acceptingResource.Create
      { Config := { Raw := some fact }, Plan := { Raw := some fact } }
      { State := { Raw := none }, Diagnostics := [] } emptyWorld
    let verified := acceptingResource.Read { State := created.1.State }
      { State := created.1.State, Diagnostics := [] } created.2
    let drifted : World RemoteLists :=
      { verified.2 with remote := verified.2.remote.remove "list-X" "client-42" }
    let stale := acceptingResource.Read { State := verified.1.State }
      { State := verified.1.State, Diagnostics := [] } drifted
    let retracted := acceptingResource.Delete { State := stale.1.State }
      { State := stale.1.State, Diagnostics := [] } stale.2
    (created.1 = { State := { Raw := some fact }, Diagnostics := [] } ∧
      created.2.remote "list-X" = ["client-42"]) ∧
    verified.1 = { State := { Raw := some fact }, Diagnostics := [] } ∧
    ("client-42" ∉ drifted.remote "list-X" ∧
      stale.1 =
        { State := { Raw := some
                      { ClientId := { Unknown := false, Null := true, Value := "" },
                        OidcArn := { Unknown := false, Null := false, Value := "list-X" } } },
          Diagnostics :=
            [{ Severity := diag.Severity.Warning,
               Summary := "ClientID: " ++ "client-42" ++ " not found on provider.",
               Detail := "ClientID was already removed manually or from another script. Will skip during delete." }] }) ∧
    (retracted.1 = { State := { Raw := none }, Diagnostics := [] } ∧
      retracted.2.trace = stale.2.trace ∧
      retracted.2.remote = stale.2.remote)) :=
  ⟨rfl, drift_scenario "client-42" "list-X" emptyWorld rfl⟩

/-! ## Remote errors -/

/-- C4. For every client, tracked or planned fact `data`, world, and response
without an error that the verb is handed (its state is the state before the
verb): whenever the one remote call the verb issues fails (add for `Create` and
`Update`, the full-list read for `Read`, remove for `Delete` of a fact whose
`client_id` is not null), the response has an error diagnostic and its state is
the one the verb was handed: no state is written and the resource is not
removed. -/
theorem remote_error_leaves_state {σ : Type} (r : oidcProviderClientIdResource σ)
    (data : oidcProviderClientIdResourceData) (config plan prior : tfsdk.State)
    (resp : tfsdk.Response) (w : World σ) (hresp : resp.Diagnostics.HasError = false) :
    (∀ e : string,
      (r.provider.iamClient.AddClientIDToOpenIDConnectProvider data.ClientId.Value
        data.OidcArn.Value w.remote).1 = Except.error e →
      (r.Create { Config := { Raw := some data }, Plan := plan } resp w).1.Diagnostics.HasError
        = true ∧
      (r.Create { Config := { Raw := some data }, Plan := plan } resp w).1.State = resp.State) ∧
    (∀ e : string,
      (r.provider.iamClient.GetOpenIDConnectProvider data.OidcArn.Value w.remote).1
        = Except.error e →
      (r.Read { State := { Raw := some data } } resp w).1.Diagnostics.HasError = true ∧
      (r.Read { State := { Raw := some data } } resp w).1.State = resp.State) ∧
    (∀ e : string,
      (r.provider.iamClient.AddClientIDToOpenIDConnectProvider data.ClientId.Value
        data.OidcArn.Value w.remote).1 = Except.error e →
      (r.Update { Config := config, Plan := { Raw := some data }, State := prior }
        resp w).1.Diagnostics.HasError = true ∧
      (r.Update { Config := config, Plan := { Raw := some data }, State := prior }
        resp w).1.State = resp.State) ∧
    (∀ e : string, data.ClientId.Null = false →
      (r.provider.iamClient.RemoveClientIDFromOpenIDConnectProvider data.ClientId.Value
        data.OidcArn.Value w.remote).1 = Except.error e →
      (r.Delete { State := { Raw := some data } } resp w).1.Diagnostics.HasError = true ∧
      (r.Delete { State := { Raw := some data } } resp w).1.State = resp.State) := by
  refine ⟨?_, ?_, ?_, ?_⟩
  · intro e he
    simp [oidcProviderClientIdResource.Create, tfsdk.State.Get, diag.Diagnostics.Append_nil,
      hresp, addClientId, World.AddClientIDToOpenIDConnectProvider, World.Lock, World.Unlock,
      he, diag.Diagnostics.HasError_AddError]
  · intro e he
    simp [oidcProviderClientIdResource.Read, tfsdk.State.Get, diag.Diagnostics.Append_nil,
      hresp, World.GetOpenIDConnectProvider, he, diag.Diagnostics.HasError_AddError]
  · intro e he
    simp [oidcProviderClientIdResource.Update, tfsdk.State.Get, diag.Diagnostics.Append_nil,
      hresp, addClientId, World.AddClientIDToOpenIDConnectProvider, World.Lock, World.Unlock,
      he, diag.Diagnostics.HasError_AddError]
  · intro e hnull he
    simp [oidcProviderClientIdResource.Delete, tfsdk.State.Get, diag.Diagnostics.Append_nil,
      hresp, hnull, removeClientId, World.RemoveClientIDFromOpenIDConnectProvider, World.Lock,
      World.Unlock, he, diag.Diagnostics.HasError_AddError]

/-- Witness of C4: every call of the remote service is rejected with
`AccessDenied`; each verb reports an error and keeps the state it was handed. -/
theorem remote_error_leaves_state_witness :
    sampleResponse.Diagnostics.HasError = false ∧
    ((rejectingResource.provider.iamClient.AddClientIDToOpenIDConnectProvider
        sampleFact.ClientId.Value sampleFact.OidcArn.Value emptyWorld.remote).1
        = Except.error "AccessDenied" ∧
      (rejectingResource.provider.iamClient.GetOpenIDConnectProvider
        sampleFact.OidcArn.Value emptyWorld.remote).1 = Except.error "AccessDenied" ∧
      (rejectingResource.provider.iamClient.RemoveClientIDFromOpenIDConnectProvider
        sampleFact.ClientId.Value sampleFact.OidcArn.Value emptyWorld.remote).1
        = Except.error "AccessDenied" ∧
      sampleFact.ClientId.Null = false) ∧
    ((rejectingResource.Create { Config := { Raw := some sampleFact }, Plan := { Raw := none } }
        sampleResponse emptyWorld).1.Diagnostics.HasError = true ∧
      (rejectingResource.Create { Config := { Raw := some sampleFact }, Plan := { Raw := none } }
        sampleResponse emptyWorld).1.State = sampleResponse.State) ∧
    ((rejectingResource.Read { State := { Raw := some sampleFact } }
        sampleResponse emptyWorld).1.Diagnostics.HasError = true ∧
      (rejectingResource.Read { State := { Raw := some sampleFact } }
        sampleResponse emptyWorld).1.State = sampleResponse.State) ∧
    ((rejectingResource.Update
        { Config := { Raw := none }, Plan := { Raw := some sampleFact }, State := { Raw := none } }
        sampleResponse emptyWorld).1.Diagnostics.HasError = true ∧
      (rejectingResource.Update
        { Config := { Raw := none }, Plan := { Raw := some sampleFact }, State := { Raw := none } }
        sampleResponse emptyWorld).1.State = sampleResponse.State) ∧
    ((rejectingResource.Delete { State := { Raw := some sampleFact } }
        sampleResponse emptyWorld).1.Diagnostics.HasError = true ∧
      (rejectingResource.Delete { State := { Raw := some sampleFact } }
        sampleResponse emptyWorld).1.State = sampleResponse.State) :=
  have h := remote_error_leaves_state rejectingResource sampleFact { Raw := none }
    { Raw := none } { Raw := none } sampleResponse emptyWorld rfl
  ⟨rfl, ⟨rfl, rfl, rfl, rfl⟩, h.1 "AccessDenied" rfl, h.2.1 "AccessDenied" rfl,
    h.2.2.1 "AccessDenied" rfl, h.2.2.2 "AccessDenied" rfl rfl⟩

/-! ## Unconfigured provider (package `blackdarkaws`) -/

/-- C5. On a provider that has not been configured (`configured = false`, nil
client), with a request whose plan and state decode: `Create` and `Update`
return with the one diagnostic "Provider not configured" and leave the world
untouched, while `Read` and `Delete` have no such check and panic on the
dereference of the nil client instead of reporting that diagnostic. -/
theorem blackdarkaws.unconfigured_Read_Delete_panic :
    blackdarkaws.unconfigured.Create (fun _ => remoteListService noFaults)
        blackdarkaws.sampleRequest blackdarkaws.sampleResponse emptyWorld =
      Outcome.returned
        ({ State := { Raw := some blackdarkaws.sampleEntry },
           Diagnostics :=
             [{ Severity := tfprotov6.DiagnosticSeverity.DiagnosticSeverityError,
                Summary := "Provider not configured",
                Detail := blackdarkaws.notConfiguredDetail }] }, emptyWorld) ∧
    blackdarkaws.unconfigured.Update (fun _ => remoteListService noFaults)
        blackdarkaws.sampleRequest blackdarkaws.sampleResponse emptyWorld =
      Outcome.returned
        ({ State := { Raw := some blackdarkaws.sampleEntry },
           Diagnostics :=
             [{ Severity := tfprotov6.DiagnosticSeverity.DiagnosticSeverityError,
                Summary := "Provider not configured",
                Detail := blackdarkaws.notConfiguredDetail }] }, emptyWorld) ∧
    blackdarkaws.unconfigured.Read (fun _ => remoteListService noFaults)
        blackdarkaws.sampleRequest blackdarkaws.sampleResponse emptyWorld =
      Outcome.panicked nilPointerDereference ∧
    blackdarkaws.unconfigured.Delete (fun _ => remoteListService noFaults)
        blackdarkaws.sampleRequest blackdarkaws.sampleResponse emptyWorld =
      Outcome.panicked nilPointerDereference :=
  ⟨rfl, rfl, rfl, rfl⟩

/-! ## Text of the error diagnostics -/

theorem isSubstring_append_right (s t : string) : isSubstring t (s ++ t) = true := by
  simp only [isSubstring, decide_eq_true_eq, String.data_append]
  exact (List.suffix_append s.data t.data).isInfix

theorem isSubstring_append_left (s t : string) : isSubstring s (s ++ t) = true := by
  simp only [isSubstring, decide_eq_true_eq, String.data_append]
  exact (List.prefix_append s.data t.data).isInfix

/-- Counterexample to C6 as stated: `Create` of `client-42` on `list-X` against
a service that answers `AccessDenied` reports one error diagnostic, and neither
its summary nor its detail contains the identifier or the list reference. -/
theorem error_context_counterexample :
    (rejectingResource.Create { Config := { Raw := some sampleFact }, Plan := { Raw := none } }
      { State := { Raw := none }, Diagnostics := [] } emptyWorld).1.Diagnostics =
      [{ Severity := diag.Severity.Error, Summary := "Client Error",
         Detail := "Unable to add audience to provider, got error: AccessDenied" }] ∧
    diag.Diagnostic.mentions
      { Severity := diag.Severity.Error, Summary := "Client Error",
        Detail := "Unable to add audience to provider, got error: AccessDenied" }
      sampleFact.ClientId.Value = false ∧
    diag.Diagnostic.mentions
      { Severity := diag.Severity.Error, Summary := "Client Error",
        Detail := "Unable to add audience to provider, got error: AccessDenied" }
      sampleFact.OidcArn.Value = false := by
  refine ⟨by decide, by decide, by decide⟩

/-- C6, amended. For every client, fact, world and underlying error message
`e`: the one diagnostic a verb reports on a fresh response when its remote call
fails with `e` is an error with summary "Client Error" whose detail is the
phrase naming the operation followed by `e`; it contains that phrase and `e` as
substrings. Identifier and list reference are not added to it. -/
theorem error_diagnostic_text {σ : Type} (r : oidcProviderClientIdResource σ)
    (data : oidcProviderClientIdResourceData) (config plan prior st : tfsdk.State)
    (w : World σ) (e : string) :
    ((r.provider.iamClient.AddClientIDToOpenIDConnectProvider data.ClientId.Value
        data.OidcArn.Value w.remote).1 = Except.error e →
      (r.Create { Config := { Raw := some data }, Plan := plan }
        { State := st, Diagnostics := [] } w).1.Diagnostics =
        [{ Severity := diag.Severity.Error, Summary := "Client Error",
           Detail := "Unable to add audience to provider, got error: " ++ e }] ∧
      (r.Update { Config := config, Plan := { Raw := some data }, State := prior }
        { State := st, Diagnostics := [] } w).1.Diagnostics =
        [{ Severity := diag.Severity.Error, Summary := "Client Error",
           Detail := "Unable to add audience to provider, got error: " ++ e }]) ∧
    ((r.provider.iamClient.GetOpenIDConnectProvider data.OidcArn.Value w.remote).1
        = Except.error e →
      (r.Read { State := { Raw := some data } }
        { State := st, Diagnostics := [] } w).1.Diagnostics =
        [{ Severity := diag.Severity.Error, Summary := "Client Error",
           Detail := "Failed retrieving current audiences, got error: " ++ e }]) ∧
    (data.ClientId.Null = false →
      (r.provider.iamClient.RemoveClientIDFromOpenIDConnectProvider data.ClientId.Value
        data.OidcArn.Value w.remote).1 = Except.error e →
      (r.Delete { State := { Raw := some data } }
        { State := st, Diagnostics := [] } w).1.Diagnostics =
        [{ Severity := diag.Severity.Error, Summary := "Client Error",
           Detail := "Unable to delete audience from provider, got error: " ++ e }]) ∧
    (∀ phrase : string,
      diag.Diagnostic.mentions
        { Severity := diag.Severity.Error, Summary := "Client Error", Detail := phrase ++ e }
        phrase = true ∧
      diag.Diagnostic.mentions
        { Severity := diag.Severity.Error, Summary := "Client Error", Detail := phrase ++ e }
        e = true) := by
  refine ⟨?_, ?_, ?_, ?_⟩
  · intro he
    constructor
    · simp [oidcProviderClientIdResource.Create, tfsdk.State.Get, diag.Diagnostics.Append_nil,
        diag.Diagnostics.HasError, addClientId, World.AddClientIDToOpenIDConnectProvider,
        World.Lock, World.Unlock, he, diag.Diagnostics.AddError,
        diag.Diagnostics.Append_singleton, diag.Diagnostics.Contains]
    · simp [oidcProviderClientIdResource.Update, tfsdk.State.Get, diag.Diagnostics.Append_nil,
        diag.Diagnostics.HasError, addClientId, World.AddClientIDToOpenIDConnectProvider,
        World.Lock, World.Unlock, he, diag.Diagnostics.AddError,
        diag.Diagnostics.Append_singleton, diag.Diagnostics.Contains]
  · intro he
    simp [oidcProviderClientIdResource.Read, tfsdk.State.Get, diag.Diagnostics.Append_nil,
      diag.Diagnostics.HasError, World.GetOpenIDConnectProvider, he, diag.Diagnostics.AddError,
      diag.Diagnostics.Append_singleton, diag.Diagnostics.Contains]
  · intro hnull he
    simp [oidcProviderClientIdResource.Delete, tfsdk.State.Get, diag.Diagnostics.Append_nil,
      diag.Diagnostics.HasError, hnull, removeClientId,
      World.RemoveClientIDFromOpenIDConnectProvider, World.Lock, World.Unlock, he,
      diag.Diagnostics.AddError, diag.Diagnostics.Append_singleton, diag.Diagnostics.Contains]
  · intro phrase
    simp [diag.Diagnostic.mentions, isSubstring_append_left, isSubstring_append_right]

/-- Witness of C6, amended: every call is rejected with `AccessDenied`. -/
theorem error_diagnostic_text_witness :
    ((rejectingResource.provider.iamClient.AddClientIDToOpenIDConnectProvider
        sampleFact.ClientId.Value sampleFact.OidcArn.Value emptyWorld.remote).1
        = Except.error "AccessDenied" ∧
      (rejectingResource.provider.iamClient.GetOpenIDConnectProvider
        sampleFact.OidcArn.Value emptyWorld.remote).1 = Except.error "AccessDenied" ∧
      (rejectingResource.provider.iamClient.RemoveClientIDFromOpenIDConnectProvider
        sampleFact.ClientId.Value sampleFact.OidcArn.Value emptyWorld.remote).1
        = Except.error "AccessDenied" ∧
      sampleFact.ClientId.Null = false) ∧
    ((rejectingResource.Create { Config := { Raw := some sampleFact }, Plan := { Raw := none } }
        { State := { Raw := none }, Diagnostics := [] } emptyWorld).1.Diagnostics =
        [{ Severity := diag.Severity.Error, Summary := "Client Error",
           Detail := "Unable to add audience to provider, got error: " ++ "AccessDenied" }] ∧
      (rejectingResource.Update
        { Config := { Raw := none }, Plan := { Raw := some sampleFact }, State := { Raw := none } }
        { State := { Raw := none }, Diagnostics := [] } emptyWorld).1.Diagnostics =
        [{ Severity := diag.Severity.Error, Summary := "Client Error",
           Detail := "Unable to add audience to provider, got error: " ++ "AccessDenied" }]) ∧
    (rejectingResource.Read { State := { Raw := some sampleFact } }
        { State := { Raw := none }, Diagnostics := [] } emptyWorld).1.Diagnostics =
        [{ Severity := diag.Severity.Error, Summary := "Client Error",
           Detail := "Failed retrieving current audiences, got error: " ++ "AccessDenied" }] ∧
    (rejectingResource.Delete { State := { Raw := some sampleFact } }
        { State := { Raw := none }, Diagnostics := [] } emptyWorld).1.Diagnostics =
        [{ Severity := diag.Severity.Error, Summary := "Client Error",
           Detail := "Unable to delete audience from provider, got error: " ++ "AccessDenied" }] :=
  have h := error_diagnostic_text rejectingResource sampleFact { Raw := none } { Raw := none }
    { Raw := none } { Raw := none } emptyWorld "AccessDenied"
  ⟨⟨rfl, rfl, rfl, rfl⟩, h.1 rfl, h.2.1 rfl, h.2.2.1 rfl rfl⟩

/-! ## Frame of the add call -/

theorem Create_run (faults : RemoteLists → RemoteCall → Option string)
    (data : oidcProviderClientIdResourceData) (plan st : tfsdk.State) (w : World RemoteLists) :
    (oidcProviderClientIdResource.Create
      { provider := { iamClient := remoteListService faults } }
      { Config := { Raw := some data }, Plan := plan }
      { State := st, Diagnostics := [] } w).2.trace =
      w.trace ++ [Event.Lock,
        Event.AddClientIDToOpenIDConnectProvider data.ClientId.Value data.OidcArn.Value,
        Event.Unlock] ∧
    (oidcProviderClientIdResource.Create
      { provider := { iamClient := remoteListService faults } }
      { Config := { Raw := some data }, Plan := plan }
      { State := st, Diagnostics := [] } w).2.remote =
      (match faults w.remote (RemoteCall.add data.OidcArn.Value data.ClientId.Value) with
       | some _ => w.remote
       | none => w.remote.add data.OidcArn.Value data.ClientId.Value) := by
  cases hf : faults w.remote (RemoteCall.add data.OidcArn.Value data.ClientId.Value) <;>
    simp [oidcProviderClientIdResource.Create, tfsdk.State.Get, tfsdk.State.Set,
      diag.Diagnostics.Append_nil, diag.Diagnostics.HasError, addClientId,
      World.AddClientIDToOpenIDConnectProvider, World.Lock, World.Unlock, World.tflog,
      remoteListService, hf]

theorem Update_run (faults : RemoteLists → RemoteCall → Option string)
    (data : oidcProviderClientIdResourceData) (config prior st : tfsdk.State)
    (w : World RemoteLists) :
    (oidcProviderClientIdResource.Update
      { provider := { iamClient := remoteListService faults } }
      { Config := config, Plan := { Raw := some data }, State := prior }
      { State := st, Diagnostics := [] } w).2.trace =
      w.trace ++ [Event.Lock,
        Event.AddClientIDToOpenIDConnectProvider data.ClientId.Value data.OidcArn.Value,
        Event.Unlock] ∧
    (oidcProviderClientIdResource.Update
      { provider := { iamClient := remoteListService faults } }
      { Config := config, Plan := { Raw := some data }, State := prior }
      { State := st, Diagnostics := [] } w).2.remote =
      (match faults w.remote (RemoteCall.add data.OidcArn.Value data.ClientId.Value) with
       | some _ => w.remote
       | none => w.remote.add data.OidcArn.Value data.ClientId.Value) ∧
    (faults w.remote (RemoteCall.add data.OidcArn.Value data.ClientId.Value) = none →
      (oidcProviderClientIdResource.Update
        { provider := { iamClient := remoteListService faults } }
        { Config := config, Plan := { Raw := some data }, State := prior }
        { State := st, Diagnostics := [] } w).1 =
        { State := { Raw := some data.stored }, Diagnostics := [] }) := by
  cases hf : faults w.remote (RemoteCall.add data.OidcArn.Value data.ClientId.Value) <;>
    simp [oidcProviderClientIdResource.Update, tfsdk.State.Get, tfsdk.State.Set,
      diag.Diagnostics.Append_nil, diag.Diagnostics.HasError, addClientId,
      World.AddClientIDToOpenIDConnectProvider, World.Lock, World.Unlock,
      remoteListService, hf]

theorem RemoteLists.add_other_list (s : RemoteLists) (L L' i : string) (h : L' ≠ L) :
    s.add L i L' = s L' := by
  simp [RemoteLists.add, h]

theorem RemoteLists.mem_add_iff (s : RemoteLists) (L L' i i' : string) (h : i ≠ i') :
    i' ∈ s.add L i L' ↔ i' ∈ s L' := by
  unfold RemoteLists.add
  by_cases hL : L' = L
  · subst hL
    by_cases hi : i ∈ s L'
    · simp [hi]
    · simp [hi, Ne.symm h]
  · simp [hL]

/-- C7. Against the remote list service (whichever calls it rejects), for every
identifier `i` and list references `L1 ≠ L2`: `Update` with the plan `(i, L2)`
and the prior state `(i, L1)` issues, under the lock, exactly one remote call,
`add(L2, i)`, and no remove; the remote list `L1` is as before, so `i` is a
member of `L1` after `Update` exactly if it was before; and when the add call
is accepted the response holds the state `(i, L2)` and no diagnostic. -/
theorem Update_keeps_old_list (i L1 L2 : string) (hne : L1 ≠ L2)
    (faults : RemoteLists → RemoteCall → Option string) (config : tfsdk.State)
    (w : World RemoteLists) :
    let prior : oidcProviderClientIdResourceData :=
      { ClientId := { Unknown := false, Null := false, Value := i },
        OidcArn := { Unknown := false, Null := false, Value := L1 } }
    let planned : oidcProviderClientIdResourceData :=
      { ClientId := { Unknown := false, Null := false, Value := i },
        OidcArn := { Unknown := false, Null := false, Value := L2 } }
    let updated := oidcProviderClientIdResource.Update
      { provider := { iamClient := remoteListService faults } }
      { Config := config, Plan := { Raw := some planned }, State := { Raw := some prior } }
      { State := { Raw := some prior }, Diagnostics := [] } w
    updated.2.trace = w.trace ++
      [Event.Lock, Event.AddClientIDToOpenIDConnectProvider i L2, Event.Unlock] ∧
    updated.2.remote L1 = w.remote L1 ∧
    (i ∈ updated.2.remote L1 ↔ i ∈ w.remote L1) ∧
    (faults w.remote (RemoteCall.add L2 i) = none →
      updated.1 = { State := { Raw := some planned }, Diagnostics := [] }) := by
  intro prior planned updated
  have h := Update_run faults planned config { Raw := some prior } { Raw := some prior } w
  have hL1 : updated.2.remote L1 = w.remote L1 := by
    show (oidcProviderClientIdResource.Update _ _ _ w).2.remote L1 = _
    rw [h.2.1]
    cases faults w.remote (RemoteCall.add planned.OidcArn.Value planned.ClientId.Value)
    · exact RemoteLists.add_other_list w.remote L2 L1 i hne
    · rfl
  exact ⟨h.1, hL1, by rw [hL1], h.2.2⟩

/-- Witness of C7: `client-42` moves from `list-X` to `list-Y`. -/
theorem Update_keeps_old_list_witness :
    "list-X" ≠ "list-Y" ∧
    (let prior : oidcProviderClientIdResourceData :=
      { ClientId := { Unknown := false, Null := false, Value := "client-42" },
        OidcArn := { Unknown := false, Null := false, Value := "list-X" } }
    let planned : oidcProviderClientIdResourceData :=
      { ClientId := { Unknown := false, Null := false, Value := "client-42" },
        OidcArn := { Unknown := false, Null := false, Value := "list-Y" } }
    let updated := oidcProviderClientIdResource.Update
      { provider := { iamClient := remoteListService noFaults } }
      { Config := { Raw := some planned }, Plan := { Raw := some planned },
        State := { Raw := some prior } }
      { State := { Raw := some prior }, Diagnostics := [] } presentWorld
    updated.2.trace = presentWorld.trace ++
      [Event.Lock, Event.AddClientIDToOpenIDConnectProvider "client-42" "list-Y",
        Event.Unlock] ∧
    updated.2.remote "list-X" = presentWorld.remote "list-X" ∧
    ("client-42" ∈ updated.2.remote "list-X" ↔ "client-42" ∈ presentWorld.remote "list-X") ∧
    (noFaults presentWorld.remote (RemoteCall.add "list-Y" "client-42") = none →
      updated.1 = { State := { Raw := some planned }, Diagnostics := [] })) :=
  ⟨by decide, Update_keeps_old_list "client-42" "list-X" "list-Y" (by decide) noFaults
    { Raw := some
        { ClientId := { Unknown := false, Null := false, Value := "client-42" },
          OidcArn := { Unknown := false, Null := false, Value := "list-Y" } } } presentWorld⟩

/-- C9. Against the remote list service (whichever calls it rejects), for all
identifiers `i1 ≠ i2`, every list reference `L` and every remote state:
after `Create(i1, L)`, `i2` is a member of a list (of `L` in particular) exactly
if it was before; and `Create` issues, under the lock, exactly one remote call,
`add(L, i1)`. -/
theorem Create_leaves_other_identifiers (i1 i2 L : string) (hne : i1 ≠ i2)
    (faults : RemoteLists → RemoteCall → Option string) (plan st : tfsdk.State)
    (w : World RemoteLists) :
    let fact : oidcProviderClientIdResourceData :=
      { ClientId := { Unknown := false, Null := false, Value := i1 },
        OidcArn := { Unknown := false, Null := false, Value := L } }
    let created := oidcProviderClientIdResource.Create
      { provider := { iamClient := remoteListService faults } }
      { Config := { Raw := some fact }, Plan := plan }
      { State := st, Diagnostics := [] } w
    (i2 ∈ created.2.remote L ↔ i2 ∈ w.remote L) ∧
    (∀ L' : string, i2 ∈ created.2.remote L' ↔ i2 ∈ w.remote L') ∧
    created.2.trace = w.trace ++
      [Event.Lock, Event.AddClientIDToOpenIDConnectProvider i1 L, Event.Unlock] := by
  intro fact created
  have h := Create_run faults fact plan st w
  have hall : ∀ L' : string, i2 ∈ created.2.remote L' ↔ i2 ∈ w.remote L' := by
    intro L'
    show i2 ∈ (oidcProviderClientIdResource.Create _ _ _ w).2.remote L' ↔ _
    rw [h.2]
    cases faults w.remote (RemoteCall.add fact.OidcArn.Value fact.ClientId.Value)
    · exact RemoteLists.mem_add_iff w.remote L L' i1 i2 hne
    · exact Iff.rfl
  exact ⟨hall L, hall, h.1⟩

/-- Witness of C9: `client-42` is created on `list-X`, which holds `other`. -/
theorem Create_leaves_other_identifiers_witness :
    "client-42" ≠ "other" ∧
    (let fact : oidcProviderClientIdResourceData :=
      { ClientId := { Unknown := false, Null := false, Value := "client-42" },
        OidcArn := { Unknown := false, Null := false, Value := "list-X" } }
    let created := oidcProviderClientIdResource.Create
      { provider := { iamClient := remoteListService noFaults } }
      { Config := { Raw := some fact }, Plan := { Raw := some fact } }
      { State := { Raw := none }, Diagnostics := [] } presentWorld
    ("other" ∈ created.2.remote "list-X" ↔ "other" ∈ presentWorld.remote "list-X") ∧
    (∀ L' : string, "other" ∈ created.2.remote L' ↔ "other" ∈ presentWorld.remote L') ∧
    created.2.trace = presentWorld.trace ++
      [Event.Lock, Event.AddClientIDToOpenIDConnectProvider "client-42" "list-X",
        Event.Unlock]) :=
  ⟨by decide, Create_leaves_other_identifiers "client-42" "other" "list-X" (by decide) noFaults
    { Raw := some sampleFact } { Raw := none } presentWorld⟩

/-! ## Lock discipline -/

theorem addClientId_trace {σ : Type} (r : oidcProviderClientIdResource σ)
    (clientId oidcArn : string) (w : World σ) :
    (addClientId r clientId oidcArn w).2.trace = w.trace ++
      [Event.Lock, Event.AddClientIDToOpenIDConnectProvider clientId oidcArn, Event.Unlock] := by
  simp [addClientId, World.AddClientIDToOpenIDConnectProvider, World.Lock, World.Unlock]

theorem removeClientId_trace {σ : Type} (r : oidcProviderClientIdResource σ)
    (clientId oidcArn : string) (w : World σ) :
    (removeClientId r clientId oidcArn w).2.trace = w.trace ++
      [Event.Lock, Event.RemoveClientIDFromOpenIDConnectProvider clientId oidcArn,
        Event.Unlock] := by
  simp [removeClientId, World.RemoveClientIDFromOpenIDConnectProvider, World.Lock, World.Unlock]

theorem Create_trace {σ : Type} (r : oidcProviderClientIdResource σ)
    (req : tfsdk.CreateResourceRequest) (resp : tfsdk.Response) (w : World σ) :
    ∃ evs : List Event, (r.Create req resp w).2.trace = w.trace ++ evs ∧
      lockDiscipline false evs = true := by
  unfold oidcProviderClientIdResource.Create
  simp only []
  split
  · exact ⟨[], by simp, rfl⟩
  · split
    · exact ⟨_, addClientId_trace _ _ _ _, rfl⟩
    · exact ⟨_, addClientId_trace _ _ _ _, rfl⟩

theorem Update_trace {σ : Type} (r : oidcProviderClientIdResource σ)
    (req : tfsdk.UpdateResourceRequest) (resp : tfsdk.Response) (w : World σ) :
    ∃ evs : List Event, (r.Update req resp w).2.trace = w.trace ++ evs ∧
      lockDiscipline false evs = true := by
  unfold oidcProviderClientIdResource.Update
  simp only []
  split
  · exact ⟨[], by simp, rfl⟩
  · split
    · exact ⟨_, addClientId_trace _ _ _ _, rfl⟩
    · exact ⟨_, addClientId_trace _ _ _ _, rfl⟩

theorem Delete_trace {σ : Type} (r : oidcProviderClientIdResource σ)
    (req : tfsdk.DeleteResourceRequest) (resp : tfsdk.Response) (w : World σ) :
    ∃ evs : List Event, (r.Delete req resp w).2.trace = w.trace ++ evs ∧
      lockDiscipline false evs = true := by
  unfold oidcProviderClientIdResource.Delete
  simp only []
  split
  · exact ⟨[], by simp, rfl⟩
  · split
    · split
      · exact ⟨_, removeClientId_trace _ _ _ _, rfl⟩
      · exact ⟨_, removeClientId_trace _ _ _ _, rfl⟩
    · exact ⟨[], by simp [World.tflog], rfl⟩

theorem Read_trace {σ : Type} (r : oidcProviderClientIdResource σ)
    (req : tfsdk.ReadResourceRequest) (resp : tfsdk.Response) (w : World σ) :
    ∃ evs : List Event, (r.Read req resp w).2.trace = w.trace ++ evs ∧
      lockDiscipline false evs = true ∧
      ∀ e ∈ evs, e.isLock = false ∧ e.isUnlock = false ∧ e.isMutation = false := by
  unfold oidcProviderClientIdResource.Read
  simp only []
  split
  · exact ⟨[], by simp, rfl, by simp⟩
  · split
    · exact ⟨[Event.GetOpenIDConnectProvider _], rfl, rfl,
        by simp [Event.isLock, Event.isUnlock, Event.isMutation]⟩
    · exact ⟨[Event.GetOpenIDConnectProvider _], rfl, rfl,
        by simp [Event.isLock, Event.isUnlock, Event.isMutation]⟩

/-- C10. For every client, request, response and world, on the events each
operation appends to the trace: `addClientId` and `removeClientId` append
exactly lock, the one mutation, unlock, whatever the call returns; the events
of `Create`, `Update` and `Delete` keep the lock discipline (a mutation only
while the lock is held, every acquire followed by one release, the lock free at
the end); the events of `Read` contain no acquire, no release and no
mutation. -/
theorem lock_discipline_of_operations {σ : Type} (r : oidcProviderClientIdResource σ)
    (clientId oidcArn : string) (create : tfsdk.CreateResourceRequest)
    (read : tfsdk.ReadResourceRequest) (update : tfsdk.UpdateResourceRequest)
    (delete : tfsdk.DeleteResourceRequest) (resp : tfsdk.Response) (w : World σ) :
    (addClientId r clientId oidcArn w).2.trace = w.trace ++
      [Event.Lock, Event.AddClientIDToOpenIDConnectProvider clientId oidcArn, Event.Unlock] ∧
    (removeClientId r clientId oidcArn w).2.trace = w.trace ++
      [Event.Lock, Event.RemoveClientIDFromOpenIDConnectProvider clientId oidcArn,
        Event.Unlock] ∧
    (∃ evs : List Event, (r.Create create resp w).2.trace = w.trace ++ evs ∧
      lockDiscipline false evs = true) ∧
    (∃ evs : List Event, (r.Update update resp w).2.trace = w.trace ++ evs ∧
      lockDiscipline false evs = true) ∧
    (∃ evs : List Event, (r.Delete delete resp w).2.trace = w.trace ++ evs ∧
      lockDiscipline false evs = true) ∧
    (∃ evs : List Event, (r.Read read resp w).2.trace = w.trace ++ evs ∧
      lockDiscipline false evs = true ∧
      ∀ e ∈ evs, e.isLock = false ∧ e.isUnlock = false ∧ e.isMutation = false) :=
  ⟨addClientId_trace r clientId oidcArn w, removeClientId_trace r clientId oidcArn w,
    Create_trace r create resp w, Update_trace r update resp w, Delete_trace r delete resp w,
    Read_trace r read resp w⟩

/-! ## Schema -/

/-- C8. In the schema `GetSchema` returns, without diagnostics, there are
exactly the attributes `client_id` and `oidc_arn`; `client_id` is required, not
optional, and its plan modifiers are exactly `RequiresReplace`; `oidc_arn` is
required, not optional, and has no plan modifier. So for an update from a prior
state to a plan, the attributes asking for replacement are `client_id` when the
planned `client_id` differs from the prior one, and none when it is the same,
whatever happens to `oidc_arn`. -/
theorem GetSchema_asymmetry (t : oidcProviderClientIdResourceType)
    (prior planned : oidcProviderClientIdResourceData) :
    (t.GetSchema).2 = [] ∧
    (t.GetSchema).1.Attributes.map Prod.fst = ["client_id", "oidc_arn"] ∧
    ((t.GetSchema).1.Attributes.lookup "client_id").map
      (fun a => (a.Required, a.Optional, a.PlanModifiers)) =
      some (true, false, [tfsdk.AttributePlanModifier.RequiresReplace]) ∧
    ((t.GetSchema).1.Attributes.lookup "oidc_arn").map
      (fun a => (a.Required, a.Optional, a.PlanModifiers)) = some (true, false, []) ∧
    (t.GetSchema).1.requiresReplace prior planned =
      if planned.ClientId = prior.ClientId then [] else ["client_id"] := by
  refine ⟨rfl, rfl, rfl, rfl, ?_⟩
  by_cases h : planned.ClientId = prior.ClientId
  · simp [oidcProviderClientIdResourceType.GetSchema, tfsdk.Schema.requiresReplace,
      oidcProviderClientIdResourceData.attribute, tfsdk.AttributePlanModifier.Modify, h]
  · simp [oidcProviderClientIdResourceType.GetSchema, tfsdk.Schema.requiresReplace,
      oidcProviderClientIdResourceData.attribute, tfsdk.AttributePlanModifier.Modify, h]

/-! ## Import -/

/-- Counterexample to C11 as stated: `client-42` is a member of the remote list
`list-X` in `presentWorld` and of no list in `emptyWorld`. Whatever the text of
the framework's path error, the import of `client-42` appends no event to the
trace in either world (there is no read of the remote list), recovers nothing
even for the member (the state of the response is still the null object and
the response has an error), and returns the same response in both worlds. -/
theorem ImportState_counterexample :
    "client-42" ∈ presentWorld.remote "list-X" ∧
    (∀ L : string, "client-42" ∉ emptyWorld.remote L) ∧
    (∀ pathError : string → string,
      (oidcProviderClientIdResource.ImportState pathError acceptingResource
        { ID := "client-42" } sampleImportResponse presentWorld).2.trace = [] ∧
      (oidcProviderClientIdResource.ImportState pathError acceptingResource
        { ID := "client-42" } sampleImportResponse emptyWorld).2.trace = [] ∧
      (oidcProviderClientIdResource.ImportState pathError acceptingResource
        { ID := "client-42" } sampleImportResponse presentWorld).1.State = { Raw := none } ∧
      (oidcProviderClientIdResource.ImportState pathError acceptingResource
        { ID := "client-42" } sampleImportResponse presentWorld).1.Diagnostics.HasError
        = true ∧
      (oidcProviderClientIdResource.ImportState pathError acceptingResource
        { ID := "client-42" } sampleImportResponse presentWorld).1 =
        (oidcProviderClientIdResource.ImportState pathError acceptingResource
          { ID := "client-42" } sampleImportResponse emptyWorld).1) := by
  refine ⟨by decide, ?_, ?_⟩
  · intro L
    simp [emptyWorld]
  · intro pathError
    exact ⟨rfl, rfl, rfl, rfl, rfl⟩

theorem GetSchema_has_no_id :
    (oidcProviderClientIdResourceType.GetSchema {}).1.Attributes.lookup "id" = none := rfl

/-- C11, amended. For every client, identifier, response and world, and
whatever the text of the framework's path error: `ImportState` leaves the world
as it is (no read of the remote list, no other remote call, no lock); it
recovers no attribute, the state of its response being the state it was handed;
the one diagnostic it appends is the error of the refused write to the path
`id`, which the schema does not have; and its response is the same for every
client and every world, so it does not depend on whether the identifier is a
member of a remote list. -/
theorem ImportState_reads_nothing {σ : Type} (pathError : string → string)
    (r : oidcProviderClientIdResource σ)
    (req : tfsdk.ImportResourceStateRequest) (resp : tfsdk.ImportResourceStateResponse)
    (w : World σ) :
    (r.ImportState pathError req resp w).2 = w ∧
    (r.ImportState pathError req resp w).1.State = resp.State ∧
    (r.ImportState pathError req resp w).1.Diagnostics =
      resp.Diagnostics.Append [tfsdk.stateWriteError (pathError "id")] ∧
    (r.ImportState pathError req resp w).1.Diagnostics.HasError = true ∧
    (∀ (τ : Type) (r' : oidcProviderClientIdResource τ) (w' : World τ),
      (r'.ImportState pathError req resp w').1 = (r.ImportState pathError req resp w).1) := by
  have hstate : (r.ImportState pathError req resp w).1.State = resp.State := by
    simp [oidcProviderClientIdResource.ImportState, tfsdk.ResourceImportStatePassthroughID,
      tfsdk.State.SetAttribute, GetSchema_has_no_id]
  have hdiags : (r.ImportState pathError req resp w).1.Diagnostics =
      resp.Diagnostics.Append [tfsdk.stateWriteError (pathError "id")] := by
    simp [oidcProviderClientIdResource.ImportState, tfsdk.ResourceImportStatePassthroughID,
      tfsdk.State.SetAttribute, GetSchema_has_no_id]
  refine ⟨rfl, hstate, hdiags, ?_, fun _ _ _ => rfl⟩
  rw [hdiags]
  exact diag.Diagnostics.HasError_AddError resp.Diagnostics _ _
